import Mathlib

/-!
# Verification of the Campus Booking API (src/booking_api.py)

A shallow embedding of the booking engine in `src/booking_api.py`:
the SQLite-backed venue registry and booking store, the admission path
`create_booking`, the read-only conflict check `is_available`, the
lifecycle operation `delete_booking`, availability endpoint
`check_availability`, and the idempotent seeding `init_database`.

Timestamps are stored and compared by SQLite as TEXT (the columns have
NUMERIC affinity but ISO-8601 strings are not numeric literals, so they
are kept and compared as text, i.e. bytewise).  The admission path
additionally parses the submitted strings with Python's
`datetime.fromisoformat` after `str.replace('Z', '+00:00')`; both the
replacement and a faithful subset of the parser are modelled below.
-/

namespace BookingApi

/-! ## Text comparison as performed by SQLite

SQLite compares TEXT values with memcmp over their UTF-8 bytes, which for
strings agrees with codepoint-lexicographic order.  `sqliteTextLt a b`
models `a < b` in the SQL query of `is_available`. -/

def charListLt : List Char → List Char → Bool
  | [], [] => false
  | [], _ :: _ => true
  | _ :: _, [] => false
  | a :: as, b :: bs =>
    if a.toNat < b.toNat then true
    else if b.toNat < a.toNat then false
    else charListLt as bs

def sqliteTextLt (a b : String) : Bool :=
  charListLt a.data b.data

/-! ## `str.replace('Z', '+00:00')`

`create_booking` normalizes each submitted timestamp with
`booking.start_time.replace('Z', '+00:00')` before parsing.  For the
single-character pattern `'Z'` Python's `str.replace` substitutes every
occurrence left to right, which is exactly the following character map. -/

def pyReplaceZChars : List Char → List Char
  | [] => []
  | c :: cs =>
    if c = 'Z' then '+' :: '0' :: '0' :: ':' :: '0' :: '0' :: pyReplaceZChars cs
    else c :: pyReplaceZChars cs

def pyReplaceZ (s : String) : String :=
  ⟨pyReplaceZChars s.data⟩

/-! ## A model of `datetime.fromisoformat`

The handler parses `YYYY-MM-DD[<sep>HH[:MM[:SS[.fff[fff]]]][±HH:MM]]`
(the strict ISO format accepted by `datetime.fromisoformat`; the
separator byte after the date is arbitrary, fractional seconds have
exactly three or six digits, and the optional offset yields an aware
datetime).  The result is reduced to the count of microseconds since
1970-01-01T00:00 of the naive wall-clock reading, plus the optional
UTC offset in minutes. -/

structure PyDateTime where
  usec : Int
  tzOffsetMin : Option Int
deriving DecidableEq, Repr

def isLeap (y : Nat) : Bool :=
  y % 4 == 0 && (y % 100 != 0 || y % 400 == 0)

def daysInMonth (y m : Nat) : Nat :=
  if m = 2 then (if isLeap y then 29 else 28)
  else if m = 4 ∨ m = 6 ∨ m = 9 ∨ m = 11 then 30
  else 31

/-- Days since 1970-01-01 of the civil date `y-m-d` (proleptic Gregorian,
valid for `1 ≤ y`). -/
def daysFromCivil (y m d : Nat) : Int :=
  let y' := if m ≤ 2 then y - 1 else y
  let era := y' / 400
  let yoe := y' % 400
  let mp := (m + 9) % 12
  let doy := (153 * mp + 2) / 5 + d - 1
  let doe := yoe * 365 + yoe / 4 - yoe / 100 + doy
  (era * 146097 + doe : Int) - 719468

def digitVal (c : Char) : Option Nat :=
  if c.isDigit then some (c.toNat - 48) else none

def take2 : List Char → Option (Nat × List Char)
  | a :: b :: rest => do
    let x ← digitVal a
    let y ← digitVal b
    pure (10 * x + y, rest)
  | _ => none

def take4 : List Char → Option (Nat × List Char)
  | a :: b :: c :: d :: rest => do
    let w ← digitVal a
    let x ← digitVal b
    let y ← digitVal c
    let z ← digitVal d
    pure (1000 * w + 100 * x + 10 * y + z, rest)
  | _ => none

def parseDate (cs : List Char) : Option (Nat × Nat × Nat × List Char) := do
  let (y, cs) ← take4 cs
  match cs with
  | '-' :: cs => do
    let (mo, cs) ← take2 cs
    match cs with
    | '-' :: cs => do
      let (d, cs) ← take2 cs
      if 1 ≤ y ∧ 1 ≤ mo ∧ mo ≤ 12 ∧ 1 ≤ d ∧ d ≤ daysInMonth y mo then
        some (y, mo, d, cs)
      else none
    | _ => none
  | _ => none

/-- Fractional seconds: exactly three or six digits, in microseconds. -/
def parseFrac (cs : List Char) : Option (Nat × List Char) :=
  match cs with
  | a :: b :: c :: rest =>
    match digitVal a, digitVal b, digitVal c with
    | some x, some y, some z =>
      let v3 := 100 * x + 10 * y + z
      match rest with
      | d :: e :: f :: rest2 =>
        match digitVal d, digitVal e, digitVal f with
        | some u, some v, some w => some (v3 * 1000 + 100 * u + 10 * v + w, rest2)
        | _, _, _ => some (v3 * 1000, rest)
      | _ => some (v3 * 1000, rest)
    | _, _, _ => none
  | _ => none

def parseTzHM (cs : List Char) : Option Int := do
  let (h, cs) ← take2 cs
  match cs with
  | ':' :: cs => do
    let (m, cs) ← take2 cs
    if h ≤ 23 ∧ m ≤ 59 ∧ cs = [] then some ((h * 60 + m : Nat) : Int) else none
  | _ => none

/-- End of the time string: either nothing (naive) or a `±HH:MM` offset. -/
def parseTzEnd : List Char → Option (Option Int)
  | [] => some none
  | '+' :: cs => do
    let o ← parseTzHM cs
    pure (some o)
  | '-' :: cs => do
    let o ← parseTzHM cs
    pure (some (-o))
  | _ => none

/-- `HH[:MM[:SS[.fff[fff]]]][±HH:MM]`, returning the microseconds elapsed
in the day and the optional offset in minutes. -/
def parseTimeTz (cs : List Char) : Option (Nat × Option Int) := do
  let (h, cs) ← take2 cs
  if 24 ≤ h then none else
  match cs with
  | ':' :: cs2 => do
    let (mi, cs3) ← take2 cs2
    if 60 ≤ mi then none else
    match cs3 with
    | ':' :: cs4 => do
      let (sec, cs5) ← take2 cs4
      if 60 ≤ sec then none else
      match cs5 with
      | '.' :: cs6 => do
        let (us, cs7) ← parseFrac cs6
        let tz ← parseTzEnd cs7
        pure ((h * 3600 + mi * 60 + sec) * 1000000 + us, tz)
      | _ => do
        let tz ← parseTzEnd cs5
        pure ((h * 3600 + mi * 60 + sec) * 1000000, tz)
    | _ => do
      let tz ← parseTzEnd cs3
      pure ((h * 3600 + mi * 60) * 1000000, tz)
  | _ => do
    let tz ← parseTzEnd cs
    pure (h * 3600 * 1000000, tz)

/-- Model of `datetime.fromisoformat`.  A bare date parses with time
00:00 and no offset; any single byte may separate date and time. -/
def fromisoformat (s : String) : Option PyDateTime := do
  let (y, mo, d, rest) ← parseDate s.data
  match rest with
  | [] => pure ⟨daysFromCivil y mo d * 86400000000, none⟩
  | _ :: tcs => do
    let (usecOfDay, tz) ← parseTimeTz tcs
    pure ⟨daysFromCivil y mo d * 86400000000 + usecOfDay, tz⟩

/-- Python comparison `a <= b` between two datetimes: naive pairs compare
wall-clock values, aware pairs compare UTC instants, and a mixed pair
raises `TypeError` (modelled as `none`). -/
def pyCompareLE (a b : PyDateTime) : Option Bool :=
  match a.tzOffsetMin, b.tzOffsetMin with
  | none, none => some (decide (a.usec ≤ b.usec))
  | some oa, some ob =>
    some (decide (a.usec - oa * 60000000 ≤ b.usec - ob * 60000000))
  | _, _ => none

/-- Python comparison `a < b`, with the same mixed-pair behaviour. -/
def pyCompareLT (a b : PyDateTime) : Option Bool :=
  match a.tzOffsetMin, b.tzOffsetMin with
  | none, none => some (decide (a.usec < b.usec))
  | some oa, some ob =>
    some (decide (a.usec - oa * 60000000 < b.usec - ob * 60000000))
  | _, _ => none

/-! ## Data model

Rows of the two tables created by `init_database`, and the in-memory
image of the SQLite database: each table as a list of rows in rowid
order, together with the next AUTOINCREMENT value of each table. -/

structure Venue where
  id : Int
  name : String
  type : String
  capacity : Int
  location : String
deriving DecidableEq, Repr

structure Booking where
  id : Int
  venue_id : Int
  booker_name : String
  start_time : String
  end_time : String
deriving DecidableEq, Repr

structure DB where
  venues : List Venue
  bookings : List Booking
  nextVenueId : Int
  nextBookingId : Int
deriving DecidableEq, Repr

def emptyDB : DB := ⟨[], [], 1, 1⟩

structure BookingRequest where
  venue_id : Int
  booker_name : String
  start_time : String
  end_time : String
deriving DecidableEq, Repr

structure BookingResponse where
  id : Int
  venue_id : Int
  venue_name : String
  booker_name : String
  start_time : String
  end_time : String
deriving DecidableEq, Repr

structure AvailabilityRequest where
  venue_id : Int
  start_time : String
  end_time : String
deriving DecidableEq, Repr

/-- Outcome of a handler: a successful response, an
`HTTPException(status_code, detail)`, or an exception escaping the
handler (the framework turns the latter into a 500 response). -/
inductive ApiResult (α : Type) where
  | ok : α → ApiResult α
  | err : Nat → String → ApiResult α
  | uncaught : ApiResult α
deriving DecidableEq, Repr

/-! ## Operations -/

/-- The rows of the eight-element `default_venues` list of
`init_database`, as `(name, type, capacity, location)`. -/
def default_venues : List (String × String × Int × String) :=
  [ ("Lecture Hall A", "Room", 50, "Building 1, Floor 1"),
    ("Lecture Hall B", "Room", 75, "Building 1, Floor 2"),
    ("Main Library", "Library", 200, "Central Building"),
    ("Science Lab 1", "Lab", 30, "Science Building, Floor 1"),
    ("Auditorium", "Auditorium", 300, "Main Building"),
    ("Study Room 101", "Study Room", 10, "Library, Floor 2"),
    ("Computer Lab", "Lab", 25, "Tech Building, Floor 1"),
    ("Conference Room A", "Meeting Room", 20, "Admin Building, Floor 3") ]

/-- The venue rows produced by `executemany` of the INSERT over
`default_venues`, with ids assigned by AUTOINCREMENT from `startId`. -/
def seedVenues (startId : Int) : List Venue :=
  default_venues.enum.map fun p =>
    ⟨startId + (p.1 : Int), p.2.1, p.2.2.1, p.2.2.2.1, p.2.2.2.2⟩

/-- `init_database`: `CREATE TABLE IF NOT EXISTS` twice (no effect on the
model), then `SELECT COUNT(*) FROM venues`, and if the count is zero the
insertion of the eight default venues. -/
def init_database (db : DB) : DB :=
  if db.venues.length = 0 then
    { db with venues := seedVenues db.nextVenueId,
              nextVenueId := db.nextVenueId + 8 }
  else db

/-- One row of the `is_available` query:
`venue_id = ? AND (start_time < ?₁ AND end_time > ?₂)` with the
parameters bound to `(venue_id, end_time, start_time)` of the request,
compared by SQLite as text. -/
def overlapsRow (venue_id : Int) (start_time end_time : String)
    (b : Booking) : Bool :=
  b.venue_id == venue_id
    && sqliteTextLt b.start_time end_time
    && sqliteTextLt start_time b.end_time

/-- `is_available(venue_id, start_time, end_time)`: true iff the SELECT
over the bookings table returns no row. -/
def is_available (bookings : List Booking) (venue_id : Int)
    (start_time end_time : String) : Bool :=
  !(bookings.any (overlapsRow venue_id start_time end_time))

/-- Lines 172-181 of the handler: parse each submitted timestamp after
the `Z` replacement (a `ValueError` yields the 400 "Invalid datetime
format" response), then evaluate `end_dt <= start_dt` (a `TypeError` on
a naive/aware pair escapes the handler; `True` yields the 400 "End time
must be after start time" response). -/
def validateInterval (start_time end_time : String) :
    ApiResult (PyDateTime × PyDateTime) :=
  match fromisoformat (pyReplaceZ start_time),
        fromisoformat (pyReplaceZ end_time) with
  | some start_dt, some end_dt =>
    match pyCompareLE end_dt start_dt with
    | none => ApiResult.uncaught
    | some true => ApiResult.err 400 "End time must be after start time"
    | some false => ApiResult.ok (start_dt, end_dt)
  | _, _ => ApiResult.err 400 "Invalid datetime format"

/-- The conflict-check phase of `create_booking` (everything before the
insert connection is opened): validation and the `is_available` call on
the raw submitted strings. -/
def admitCheck (db : DB) (req : BookingRequest) : ApiResult Unit :=
  match validateInterval req.start_time req.end_time with
  | ApiResult.ok _ =>
    if is_available db.bookings req.venue_id req.start_time req.end_time then
      ApiResult.ok ()
    else ApiResult.err 409 "Venue is not available for the selected time"
  | ApiResult.err s d => ApiResult.err s d
  | ApiResult.uncaught => ApiResult.uncaught

/-- The insert phase of `create_booking` (lines 188-215): INSERT the raw
submitted strings, read `lastrowid`, resolve the venue name, commit.
When the venue id has no row, `fetchone()` returns `None` and
`fetchone()[0]` raises `TypeError`, caught by the handler's
`except Exception` as a 500 "Database error" response; the connection
closes without commit, so the INSERT is rolled back (including the
AUTOINCREMENT bump). -/
def admitInsert (db : DB) (req : BookingRequest) :
    ApiResult BookingResponse × DB :=
  match db.venues.find? (fun v => v.id == req.venue_id) with
  | some v =>
    (ApiResult.ok ⟨db.nextBookingId, req.venue_id, v.name, req.booker_name,
        req.start_time, req.end_time⟩,
     { db with
        bookings := db.bookings ++
          [⟨db.nextBookingId, req.venue_id, req.booker_name,
            req.start_time, req.end_time⟩],
        nextBookingId := db.nextBookingId + 1 })
  | none =>
    (ApiResult.err 500 "Database error: NoneType object is not subscriptable",
     db)

/-- `create_booking`: validation, the availability check on the raw
submitted strings, then the insert phase. -/
def create_booking (db : DB) (req : BookingRequest) :
    ApiResult BookingResponse × DB :=
  match validateInterval req.start_time req.end_time with
  | ApiResult.ok _ =>
    if is_available db.bookings req.venue_id req.start_time req.end_time then
      admitInsert db req
    else
      (ApiResult.err 409 "Venue is not available for the selected time", db)
  | ApiResult.err s d => (ApiResult.err s d, db)
  | ApiResult.uncaught => (ApiResult.uncaught, db)

/-- `check_availability`: calls `is_available` on the submitted values
and returns the boolean with a 200 status; no mutation. -/
def check_availability (db : DB) (req : AvailabilityRequest) : Bool × DB :=
  (is_available db.bookings req.venue_id req.start_time req.end_time, db)

/-- `delete_booking`: `DELETE FROM bookings WHERE id = ?`; a zero
rowcount yields the 404 response with no commit, otherwise commit. -/
def delete_booking (db : DB) (bookingId : Int) : ApiResult String × DB :=
  let remaining := db.bookings.filter (fun b => !(b.id == bookingId))
  if remaining.length = db.bookings.length then
    (ApiResult.err 404 "Booking not found", db)
  else
    (ApiResult.ok "Booking deleted successfully",
     { db with bookings := remaining })

/-! ## Spec-side definition: the §4.1 overlap predicate on instants

The spec defines overlap of `[s1,e1)` and `[s2,e2)` as
`s1 < e2 AND s2 < e1` over the denoted time instants.  This definition
evaluates that predicate on timestamp strings by parsing them exactly
as the admission path does and comparing the resulting datetimes with
Python's order; it is the spec's predicate, kept separate from the
code's string-based query so the two can be compared. -/
def overlap_spec (s1 e1 s2 e2 : String) : Option Bool :=
  match fromisoformat (pyReplaceZ s1), fromisoformat (pyReplaceZ e1),
        fromisoformat (pyReplaceZ s2), fromisoformat (pyReplaceZ e2) with
  | some a1, some b1, some a2, some b2 =>
    match pyCompareLT a1 b2, pyCompareLT a2 b1 with
    | some x, some y => some (x && y)
    | _, _ => none
  | _, _, _, _ => none

/-! ## Helper lemmas -/

theorem pyReplaceZChars_idem (cs : List Char) :
    pyReplaceZChars (pyReplaceZChars cs) = pyReplaceZChars cs := by
  induction cs with
  | nil => rfl
  | cons c cs ih =>
    by_cases hc : c = 'Z' <;> simp [pyReplaceZChars, hc, ih]

theorem pyReplaceZ_idem (s : String) :
    pyReplaceZ (pyReplaceZ s) = pyReplaceZ s := by
  simp [pyReplaceZ, pyReplaceZChars_idem]

/-- The conflict check of `is_available` reports a conflict exactly when
some stored row on the same venue satisfies the strict two-sided
comparison of the SQL query. -/
theorem is_available_eq_false_iff (bookings : List Booking) (v : Int)
    (s e : String) :
    is_available bookings v s e = false ↔
      ∃ b ∈ bookings, b.venue_id = v ∧
        sqliteTextLt b.start_time e = true ∧
        sqliteTextLt s b.end_time = true := by
  simp [is_available, overlapsRow, List.any_eq_true, Bool.and_eq_true,
    and_assoc]

/-- `create_booking` is literally the conflict-check phase followed, on
success, by the insert phase: two separate database round trips with no
exclusion between them. -/
theorem create_booking_phases (db : DB) (req : BookingRequest) :
    create_booking db req =
      match admitCheck db req with
      | ApiResult.ok _ => admitInsert db req
      | ApiResult.err s d => (ApiResult.err s d, db)
      | ApiResult.uncaught => (ApiResult.uncaught, db) := by
  cases hv : validateInterval req.start_time req.end_time <;>
    simp only [create_booking, admitCheck, hv]
  cases hav : is_available db.bookings req.venue_id req.start_time
      req.end_time <;> simp [hav]

/-! ## Claims -/

/-- C5: for every state and every request in which a timestamp fails to
parse, or in which both parse and end <= start (including start == end
and start > end), `create_booking` fails with the InvalidInterval client
error (status 400) and leaves the store unchanged; the state being
universally quantified, the outcome precedes and is independent of any
conflict query and any venue lookup. -/
theorem c5_invalid_interval_rejected_first (db : DB) (req : BookingRequest) :
    ((fromisoformat (pyReplaceZ req.start_time) = none ∨
      fromisoformat (pyReplaceZ req.end_time) = none) →
      create_booking db req =
        (ApiResult.err 400 "Invalid datetime format", db)) ∧
    (∀ sdt edt, fromisoformat (pyReplaceZ req.start_time) = some sdt →
      fromisoformat (pyReplaceZ req.end_time) = some edt →
      pyCompareLE edt sdt = some true →
      create_booking db req =
        (ApiResult.err 400 "End time must be after start time", db)) := by
  constructor
  · intro h
    rcases h with h | h
    · simp [create_booking, validateInterval, h]
    · cases hs : fromisoformat (pyReplaceZ req.start_time) <;>
        simp [create_booking, validateInterval, hs, h]
  · intro sdt edt hs he hle
    simp [create_booking, validateInterval, hs, he, hle]

/-- C5 witness: a malformed start timestamp and an empty interval, both
rejected with a 400 response against the seeded database. -/
theorem c5_witness :
    create_booking (init_database emptyDB)
        ⟨1, "Ann", "not-a-date", "2024-01-01T11:00:00Z"⟩ =
      (ApiResult.err 400 "Invalid datetime format", init_database emptyDB) ∧
    create_booking (init_database emptyDB)
        ⟨1, "Ann", "2024-01-01T11:00:00Z", "2024-01-01T11:00:00Z"⟩ =
      (ApiResult.err 400 "End time must be after start time",
       init_database emptyDB) :=
  ⟨(c5_invalid_interval_rejected_first (init_database emptyDB)
      ⟨1, "Ann", "not-a-date", "2024-01-01T11:00:00Z"⟩).1
      (Or.inl (by decide)),
   (c5_invalid_interval_rejected_first (init_database emptyDB)
      ⟨1, "Ann", "2024-01-01T11:00:00Z", "2024-01-01T11:00:00Z"⟩).2
      ⟨1704106800000000, some 0⟩ ⟨1704106800000000, some 0⟩
      (by decide) (by decide) (by decide)⟩

/-- C8: `init_database` on an empty venue registry inserts the fixed
default venue set; on a non-empty registry it is a no-op; hence seeding
twice yields exactly the default venue set, without duplicates. -/
theorem c8_idempotent_seeding (db : DB) :
    (db.venues = [] →
      (init_database db).venues = seedVenues db.nextVenueId) ∧
    (db.venues ≠ [] → init_database db = db) ∧
    (init_database (init_database db)).venues = (init_database db).venues ∧
    ((init_database emptyDB).venues.map Venue.name).Nodup := by
  refine ⟨fun h => by simp [init_database, h], fun h => by
    simp [init_database, List.length_eq_zero, h], ?_, by decide⟩
  by_cases hv : db.venues = []
  · simp [init_database, hv, seedVenues, default_venues]
  · simp [init_database, List.length_eq_zero, hv]

/-- C8 witness: seeding the empty registry yields the default venue
rows, and seeding an already-seeded registry changes nothing. -/
theorem c8_witness :
    (init_database emptyDB).venues = seedVenues 1 ∧
    init_database (init_database emptyDB) = init_database emptyDB :=
  ⟨(c8_idempotent_seeding emptyDB).1 rfl,
   (c8_idempotent_seeding (init_database emptyDB)).2.1 (by decide)⟩

/-- C9: `check_availability` never mutates the state, returns true for
every venue id with no stored booking rows (whether or not the id
exists in the venue registry), and its result never consults the venue
registry at all. -/
theorem c9_availability_readonly (db : DB) (req : AvailabilityRequest) :
    (check_availability db req).2 = db ∧
    ((∀ b ∈ db.bookings, b.venue_id ≠ req.venue_id) →
      (check_availability db req).1 = true) ∧
    (∀ vs : List Venue,
      (check_availability { db with venues := vs } req).1 =
        (check_availability db req).1) := by
  refine ⟨rfl, ?_, fun vs => rfl⟩
  intro h
  simp only [check_availability, is_available, Bool.not_eq_true',
    List.any_eq_false]
  intro b hb
  simp [overlapsRow, h b hb]

/-- C9 witness: a venue id absent from the seeded registry, with no
booking rows, is reported available. -/
theorem c9_witness :
    (check_availability (init_database emptyDB)
        ⟨999, "2024-01-01T10:00:00Z", "2024-01-01T11:00:00Z"⟩).1 = true :=
  (c9_availability_readonly (init_database emptyDB)
    ⟨999, "2024-01-01T10:00:00Z", "2024-01-01T11:00:00Z"⟩).2.1
    (by decide)

/-- C10: every successful admission returns the caller's start and end
timestamp strings exactly as submitted, echoes the submitted venue id
and booker name together with the newly assigned booking id and the
venue's stored display name, and appends to the store a row holding the
submitted strings verbatim (the parsed datetimes are discarded). -/
theorem c10_success_echoes_submitted (db : DB) (req : BookingRequest)
    (resp : BookingResponse) (db2 : DB)
    (h : create_booking db req = (ApiResult.ok resp, db2)) :
    resp.start_time = req.start_time ∧ resp.end_time = req.end_time ∧
    resp.venue_id = req.venue_id ∧ resp.booker_name = req.booker_name ∧
    resp.id = db.nextBookingId ∧
    (∃ v, db.venues.find? (fun w => w.id == req.venue_id) = some v ∧
      resp.venue_name = v.name) ∧
    db2.bookings = db.bookings ++
      [⟨db.nextBookingId, req.venue_id, req.booker_name,
        req.start_time, req.end_time⟩] ∧
    db2.venues = db.venues := by
  unfold create_booking at h
  cases hv : validateInterval req.start_time req.end_time <;> rw [hv] at h
  case err s d => simp at h
  case uncaught => simp at h
  case ok p =>
    cases hav : is_available db.bookings req.venue_id req.start_time
        req.end_time <;> rw [hav] at h
    · simp at h
    · simp only [if_true] at h
      unfold admitInsert at h
      cases hfind : db.venues.find? (fun v => v.id == req.venue_id) <;>
        rw [hfind] at h
      · simp at h
      case some v =>
        rw [Prod.mk.injEq] at h
        obtain ⟨h1, h2⟩ := h
        injection h1 with h1
        subst h1
        subst h2
        exact ⟨rfl, rfl, rfl, rfl, rfl, ⟨v, rfl, rfl⟩, rfl, rfl⟩

/-- C10 witness: a concrete successful admission against the seeded
database echoes the submitted fields and appends the submitted row. -/
theorem c10_witness :
    (⟨1, 1, "Lecture Hall A", "Ann", "2024-01-01T10:00:00Z",
        "2024-01-01T11:00:00Z"⟩ : BookingResponse).start_time =
      "2024-01-01T10:00:00Z" ∧
    ((init_database emptyDB).bookings ++
      [⟨1, 1, "Ann", "2024-01-01T10:00:00Z", "2024-01-01T11:00:00Z"⟩] :
        List Booking) =
      [⟨1, 1, "Ann", "2024-01-01T10:00:00Z", "2024-01-01T11:00:00Z"⟩] := by
  have h := c10_success_echoes_submitted (init_database emptyDB)
    ⟨1, "Ann", "2024-01-01T10:00:00Z", "2024-01-01T11:00:00Z"⟩
    ⟨1, 1, "Lecture Hall A", "Ann", "2024-01-01T10:00:00Z",
      "2024-01-01T11:00:00Z"⟩
    { init_database emptyDB with
        bookings := [⟨1, 1, "Ann", "2024-01-01T10:00:00Z",
          "2024-01-01T11:00:00Z"⟩],
        nextBookingId := 2 }
    (by decide)
  exact ⟨h.1, h.2.2.2.2.2.2.1.symm ▸ rfl⟩

/-- C4: for every request with a valid interval, the conflict rejection
of `create_booking` fires exactly when some stored row on the same
venue satisfies the strict half-open comparison s1 < e2 AND s2 < e1
(on the stored timestamp text); in particular, admitting
[11:00Z,12:00Z) after an accepted [10:00Z,11:00Z) on the same venue
succeeds — back-to-back bookings sharing an endpoint are no conflict. -/
theorem c4_half_open_boundary :
    (∀ (db : DB) (req : BookingRequest) (sdt edt : PyDateTime),
      validateInterval req.start_time req.end_time =
        ApiResult.ok (sdt, edt) →
      ((create_booking db req).1 =
          ApiResult.err 409 "Venue is not available for the selected time" ↔
        ∃ b ∈ db.bookings, b.venue_id = req.venue_id ∧
          sqliteTextLt b.start_time req.end_time = true ∧
          sqliteTextLt req.start_time b.end_time = true)) ∧
    (create_booking (init_database emptyDB)
        ⟨1, "Ann", "2024-01-01T10:00:00Z", "2024-01-01T11:00:00Z"⟩).1 =
      ApiResult.ok ⟨1, 1, "Lecture Hall A", "Ann",
        "2024-01-01T10:00:00Z", "2024-01-01T11:00:00Z"⟩ ∧
    (create_booking
        ((create_booking (init_database emptyDB)
          ⟨1, "Ann", "2024-01-01T10:00:00Z", "2024-01-01T11:00:00Z"⟩).2)
        ⟨1, "Ben", "2024-01-01T11:00:00Z", "2024-01-01T12:00:00Z"⟩).1 =
      ApiResult.ok ⟨2, 1, "Lecture Hall A", "Ben",
        "2024-01-01T11:00:00Z", "2024-01-01T12:00:00Z"⟩ := by
  refine ⟨?_, by decide, by decide⟩
  intro db req sdt edt hv
  rw [← is_available_eq_false_iff db.bookings req.venue_id req.start_time
    req.end_time]
  unfold create_booking
  rw [hv]
  cases hav : is_available db.bookings req.venue_id req.start_time
      req.end_time
  · simp
  · simp only [if_true]
    unfold admitInsert
    cases hfind : db.venues.find? (fun v => v.id == req.venue_id) <;> simp

/-- C4 witness: with [10:00Z,11:00Z) stored on venue 1, the request
[10:30Z,11:30Z) is rejected with the 409 conflict response, obtained
through the conflict characterization at this concrete input. -/
theorem c4_witness :
    (create_booking
        ((create_booking (init_database emptyDB)
          ⟨1, "Ann", "2024-01-01T10:00:00Z", "2024-01-01T11:00:00Z"⟩).2)
        ⟨1, "Ben", "2024-01-01T10:30:00Z", "2024-01-01T11:30:00Z"⟩).1 =
      ApiResult.err 409 "Venue is not available for the selected time" :=
  (c4_half_open_boundary.1
    ((create_booking (init_database emptyDB)
      ⟨1, "Ann", "2024-01-01T10:00:00Z", "2024-01-01T11:00:00Z"⟩).2)
    ⟨1, "Ben", "2024-01-01T10:30:00Z", "2024-01-01T11:30:00Z"⟩
    ⟨1704105000000000, some 0⟩ ⟨1704108600000000, some 0⟩
    (by decide)).mpr (by decide)

/-- C6 counterexample: a stored booking [10:00,11:00)+01:00 on venue 1
denotes the instants [09:00Z,10:00Z), which overlap the valid request
[09:30Z,09:45Z) under the §4.1 predicate on instants, yet
`create_booking` admits the request instead of failing with the 409
conflict: the conflict query compares the raw timestamp strings, and
"2024-01-01T10:00:00+01:00" is not lexicographically below
"2024-01-01T09:45:00Z". -/
theorem c6_counterexample :
    ((create_booking (init_database emptyDB)
        ⟨1, "Pia", "2024-01-01T10:00:00+01:00",
          "2024-01-01T11:00:00+01:00"⟩).2).bookings =
      [⟨1, 1, "Pia", "2024-01-01T10:00:00+01:00",
        "2024-01-01T11:00:00+01:00"⟩] ∧
    overlap_spec "2024-01-01T10:00:00+01:00" "2024-01-01T11:00:00+01:00"
      "2024-01-01T09:30:00Z" "2024-01-01T09:45:00Z" = some true ∧
    (create_booking
        ((create_booking (init_database emptyDB)
          ⟨1, "Pia", "2024-01-01T10:00:00+01:00",
            "2024-01-01T11:00:00+01:00"⟩).2)
        ⟨1, "Quin", "2024-01-01T09:30:00Z", "2024-01-01T09:45:00Z"⟩).1 =
      ApiResult.ok ⟨2, 1, "Lecture Hall A", "Quin",
        "2024-01-01T09:30:00Z", "2024-01-01T09:45:00Z"⟩ := by
  refine ⟨by decide, by decide, by decide⟩

/-- C6 amended: for every request with a valid interval, if some stored
booking on the same venue overlaps the requested interval under the
§4.1 predicate applied to the raw timestamp strings in lexicographic
(SQLite text) order — which coincides with the predicate on instants
whenever all timestamps share one format and offset — the call fails
with the 409 conflict response and no record is inserted; and the check
is venue-scoped: an identical interval admitted on two different venues
succeeds on both. -/
theorem c6_conflict_and_venue_independence :
    (∀ (db : DB) (req : BookingRequest) (sdt edt : PyDateTime),
      validateInterval req.start_time req.end_time =
        ApiResult.ok (sdt, edt) →
      (∃ b ∈ db.bookings, b.venue_id = req.venue_id ∧
        sqliteTextLt b.start_time req.end_time = true ∧
        sqliteTextLt req.start_time b.end_time = true) →
      create_booking db req =
        (ApiResult.err 409 "Venue is not available for the selected time",
         db)) ∧
    (create_booking
        ((create_booking (init_database emptyDB)
          ⟨1, "Ann", "2024-01-01T10:00:00Z", "2024-01-01T11:00:00Z"⟩).2)
        ⟨2, "Ben", "2024-01-01T10:00:00Z", "2024-01-01T11:00:00Z"⟩).1 =
      ApiResult.ok ⟨2, 2, "Lecture Hall B", "Ben",
        "2024-01-01T10:00:00Z", "2024-01-01T11:00:00Z"⟩ := by
  constructor
  · intro db req sdt edt hv hov
    have hav : is_available db.bookings req.venue_id req.start_time
        req.end_time = false :=
      (is_available_eq_false_iff db.bookings req.venue_id req.start_time
        req.end_time).mpr hov
    unfold create_booking
    rw [hv, hav]
    simp
  · decide

/-- C6 witness: with [10:00Z,11:00Z) stored on venue 1, the overlapping
request [10:30Z,11:30Z) on venue 1 is rejected with the 409 response
and the store is unchanged. -/
theorem c6_witness :
    create_booking
        ((create_booking (init_database emptyDB)
          ⟨1, "Ann", "2024-01-01T10:00:00Z", "2024-01-01T11:00:00Z"⟩).2)
        ⟨1, "Bob", "2024-01-01T10:30:00Z", "2024-01-01T11:30:00Z"⟩ =
      (ApiResult.err 409 "Venue is not available for the selected time",
       (create_booking (init_database emptyDB)
          ⟨1, "Ann", "2024-01-01T10:00:00Z", "2024-01-01T11:00:00Z"⟩).2) :=
  c6_conflict_and_venue_independence.1
    ((create_booking (init_database emptyDB)
      ⟨1, "Ann", "2024-01-01T10:00:00Z", "2024-01-01T11:00:00Z"⟩).2)
    ⟨1, "Bob", "2024-01-01T10:30:00Z", "2024-01-01T11:30:00Z"⟩
    ⟨1704105000000000, some 0⟩ ⟨1704108600000000, some 0⟩
    (by decide) (by decide)

/-- C7 counterexample: with [10:00Z,11:00Z) stored on venue 1, the
adjacent request written with the "Z" designator is admitted, but the
same request with "Z" replaced by "+00:00" — the very normalization the
handler itself applies before parsing — is rejected with the 409
conflict: the conflict query compares the submitted strings raw, and
"2024-01-01T11:00:00+00:00" is lexicographically below the stored end
"2024-01-01T11:00:00Z" while "2024-01-01T11:00:00Z" is not.  Replacing
the UTC designator therefore changes the admission outcome. -/
theorem c7_counterexample :
    pyReplaceZ "2024-01-01T11:00:00Z" = "2024-01-01T11:00:00+00:00" ∧
    pyReplaceZ "2024-01-01T12:00:00Z" = "2024-01-01T12:00:00+00:00" ∧
    (create_booking
        ((create_booking (init_database emptyDB)
          ⟨1, "Ann", "2024-01-01T10:00:00Z", "2024-01-01T11:00:00Z"⟩).2)
        ⟨1, "Ben", "2024-01-01T11:00:00Z", "2024-01-01T12:00:00Z"⟩).1 =
      ApiResult.ok ⟨2, 1, "Lecture Hall A", "Ben",
        "2024-01-01T11:00:00Z", "2024-01-01T12:00:00Z"⟩ ∧
    (create_booking
        ((create_booking (init_database emptyDB)
          ⟨1, "Ann", "2024-01-01T10:00:00Z", "2024-01-01T11:00:00Z"⟩).2)
        ⟨1, "Ben", "2024-01-01T11:00:00+00:00",
          "2024-01-01T12:00:00+00:00"⟩).1 =
      ApiResult.err 409 "Venue is not available for the selected time" := by
  refine ⟨by decide, by decide, by decide, by decide⟩

/-- C7 amended: replacing the "Z" designator by "+00:00" (or vice
versa) in the timestamps of a request leaves the interval-validation
outcome of the admission path unchanged — parse success, the parsed
datetimes, and the end > start classification are identical — because
the handler rewrites "Z" to "+00:00" before parsing, so both
representations reduce to the same string; the conflict decision,
however, compares the submitted strings raw and is not invariant. -/
theorem c7_amended_validation_representation_insensitive
    (start_time end_time : String) :
    validateInterval (pyReplaceZ start_time) (pyReplaceZ end_time) =
      validateInterval start_time end_time := by
  simp [validateInterval, pyReplaceZ_idem]

/-- C1: evaluating the code at the failing schedule.  Two admission
calls on venue 1 for the overlapping intervals [10:00Z,11:00Z) and
[10:30Z,11:30Z) each pass their conflict-check phase against the seeded
(conflict-free) store before either insert phase runs — the interleaving
check/check/insert/insert, available because the check and the insert
are separate unsynchronized database round trips — after which the store
holds two distinct bookings on venue 1 that overlap under the §4.1
half-open predicate, on the stored text and on the denoted instants
alike: the non-overlap invariant is violated at an observable point. -/
theorem c1_race_violates_invariant :
    admitCheck (init_database emptyDB)
      ⟨1, "Alice", "2024-01-01T10:00:00Z", "2024-01-01T11:00:00Z"⟩ =
      ApiResult.ok () ∧
    admitCheck (init_database emptyDB)
      ⟨1, "Bob", "2024-01-01T10:30:00Z", "2024-01-01T11:30:00Z"⟩ =
      ApiResult.ok () ∧
    (admitInsert (init_database emptyDB)
      ⟨1, "Alice", "2024-01-01T10:00:00Z", "2024-01-01T11:00:00Z"⟩).1 =
      ApiResult.ok ⟨1, 1, "Lecture Hall A", "Alice",
        "2024-01-01T10:00:00Z", "2024-01-01T11:00:00Z"⟩ ∧
    (admitInsert
        ((admitInsert (init_database emptyDB)
          ⟨1, "Alice", "2024-01-01T10:00:00Z",
            "2024-01-01T11:00:00Z"⟩).2)
        ⟨1, "Bob", "2024-01-01T10:30:00Z", "2024-01-01T11:30:00Z"⟩).1 =
      ApiResult.ok ⟨2, 1, "Lecture Hall A", "Bob",
        "2024-01-01T10:30:00Z", "2024-01-01T11:30:00Z"⟩ ∧
    ((admitInsert
        ((admitInsert (init_database emptyDB)
          ⟨1, "Alice", "2024-01-01T10:00:00Z",
            "2024-01-01T11:00:00Z"⟩).2)
        ⟨1, "Bob", "2024-01-01T10:30:00Z",
          "2024-01-01T11:30:00Z"⟩).2).bookings =
      [⟨1, 1, "Alice", "2024-01-01T10:00:00Z", "2024-01-01T11:00:00Z"⟩,
       ⟨2, 1, "Bob", "2024-01-01T10:30:00Z", "2024-01-01T11:30:00Z"⟩] ∧
    sqliteTextLt "2024-01-01T10:00:00Z" "2024-01-01T11:30:00Z" = true ∧
    sqliteTextLt "2024-01-01T10:30:00Z" "2024-01-01T11:00:00Z" = true ∧
    overlap_spec "2024-01-01T10:00:00Z" "2024-01-01T11:00:00Z"
      "2024-01-01T10:30:00Z" "2024-01-01T11:30:00Z" = some true := by
  refine ⟨by decide, by decide, by decide, by decide, by decide,
    by decide, by decide, by decide⟩

/-- C2: evaluating the code at the failing schedule.  Two admission
calls on venue 1 requesting the identical valid interval
[10:00Z,11:00Z) against the seeded conflict-free store both pass their
conflict-check phase before either insert phase runs, and then both
insert phases succeed: both calls return a success response, instead of
exactly one success and one 409 conflict — nothing prevents another
call from interleaving between the check and the insert. -/
theorem c2_race_admits_both :
    admitCheck (init_database emptyDB)
      ⟨1, "Alice", "2024-01-01T10:00:00Z", "2024-01-01T11:00:00Z"⟩ =
      ApiResult.ok () ∧
    admitCheck (init_database emptyDB)
      ⟨1, "Bob", "2024-01-01T10:00:00Z", "2024-01-01T11:00:00Z"⟩ =
      ApiResult.ok () ∧
    (admitInsert (init_database emptyDB)
      ⟨1, "Alice", "2024-01-01T10:00:00Z", "2024-01-01T11:00:00Z"⟩).1 =
      ApiResult.ok ⟨1, 1, "Lecture Hall A", "Alice",
        "2024-01-01T10:00:00Z", "2024-01-01T11:00:00Z"⟩ ∧
    (admitInsert
        ((admitInsert (init_database emptyDB)
          ⟨1, "Alice", "2024-01-01T10:00:00Z",
            "2024-01-01T11:00:00Z"⟩).2)
        ⟨1, "Bob", "2024-01-01T10:00:00Z", "2024-01-01T11:00:00Z"⟩).1 =
      ApiResult.ok ⟨2, 1, "Lecture Hall A", "Bob",
        "2024-01-01T10:00:00Z", "2024-01-01T11:00:00Z"⟩ := by
  refine ⟨by decide, by decide, by decide, by decide⟩

/-- C3: evaluating the code at the failing input.  For a request with a
valid interval against a venue id absent from the seeded registry,
`create_booking` runs the conflict query first (it is the availability
check that passes) and then fails with a 500 "Database error" server
response — the venue lookup after the insert returns no row — rather
than with a VenueNotFound client error before any conflict logic; the
store is left unchanged because the connection closes uncommitted. -/
theorem c3_unknown_venue_server_error :
    validateInterval "2024-01-01T10:00:00Z" "2024-01-01T11:00:00Z" =
      ApiResult.ok (⟨1704103200000000, some 0⟩,
        ⟨1704106800000000, some 0⟩) ∧
    (∀ v ∈ (init_database emptyDB).venues, v.id ≠ 999) ∧
    is_available (init_database emptyDB).bookings 999
      "2024-01-01T10:00:00Z" "2024-01-01T11:00:00Z" = true ∧
    create_booking (init_database emptyDB)
      ⟨999, "Omar", "2024-01-01T10:00:00Z", "2024-01-01T11:00:00Z"⟩ =
      (ApiResult.err 500 "Database error: NoneType object is not subscriptable",
       init_database emptyDB) := by
  refine ⟨by decide, by decide, by decide, by decide⟩

end BookingApi
